import Mathlib

/-!
Verification of the menu/cart core of `telegram_cars_bot.py`.

The bot's core is embedded shallowly: the `carts.json` document is a value
threaded through the functions (every handler re-reads and re-writes the
whole document, so one value models the file), Python exceptions are
`Except.error`, and the single admin send attempted during checkout is
modelled by a boolean `sendOk` input.  Strings are Lean strings; the
Python operations used by the bot (`startswith`, `split` with and without
`maxsplit`, `"\n".join`) are defined below on the code-point sequences,
matching Python `str` semantics.
-/

set_option maxHeartbeats 1000000

namespace CarsBot

/-- A cart item: the dict literal built in the `add_item` branch of
`callback_router` (fields `car`, `model`, `name`, `meta`, `price`, `qty`). -/
structure Item where
  car : String
  model : String
  name : String
  meta : String
  price : Int
  qty : Int
  deriving DecidableEq, Repr

/-- A user's cart. The source wraps the item list as `{"items": [...]}`;
the wrapper dict has the single key `items`, so the cart is its item list
(the wrapper shape reappears in the persistence model below). -/
abbrev Cart := List Item

/-- The `carts.json` document: user-id string to cart, in insertion order. -/
abbrev CartDoc := List (String × Cart)

/-- First-match lookup in an association list, modelling Python dict
access (`d[k]`, `k in d`, `d.get(k)`); the keys of a Python dict are
unique, so the first match is the match. -/
def dictGet {α : Type} : List (String × α) → String → Option α
  | [], _ => none
  | (k, v) :: rest, key => if k = key then some v else dictGet rest key

/-- Python `d.get(k, dflt)`. -/
def dictGetD {α : Type} (d : List (String × α)) (key : String) (dflt : α) : α :=
  (dictGet d key).getD dflt

/-- Python `d[k] = v`: replace in place if the key exists, otherwise
append at the end (dicts keep insertion order). -/
def dictSet {α : Type} : List (String × α) → String → α → List (String × α)
  | [], key, v => [(key, v)]
  | (k, w) :: rest, key, v =>
      if k = key then (key, v) :: rest else (k, w) :: dictSet rest key v

/-- Python `d.pop(k, None)`: remove the binding for `k`.  The keys of a
Python dict are unique, so removing every binding with that key models it. -/
def dictPop {α : Type} (d : List (String × α)) (key : String) : List (String × α) :=
  d.filter (fun p => p.1 != key)

/-- Python `s.startswith(p)` on code-point sequences. -/
def pyStartsWith (s p : String) : Bool := p.data.isPrefixOf s.data

/-- Split a code-point sequence at every occurrence of `sep`:
Python `s.split(sep)` with a one-character separator. -/
def splitChars (sep : Char) : List Char → List (List Char)
  | [] => [[]]
  | c :: rest =>
      match splitChars sep rest with
      | [] => [[]]
      | p :: ps => if c = sep then [] :: p :: ps else (c :: p) :: ps

/-- Python `s.split(sep)` (single-character separator, no maxsplit). -/
def pySplitAll (s : String) (sep : Char) : List String :=
  (splitChars sep s.data).map (fun cs => ⟨cs⟩)

/-- Python `s.split(sep, maxsplit)`: at most `maxsplit` splits; the last
piece keeps any remaining separators. -/
def pySplit (s : String) (sep : Char) (maxsplit : Nat) : List String :=
  let ps := pySplitAll s sep
  if ps.length ≤ maxsplit + 1 then ps
  else ps.take maxsplit ++ [String.intercalate sep.toString (ps.drop maxsplit)]

/-- Python `"\n".join(lines)`. -/
def joinNL : List String → String
  | [] => ""
  | [l] => l
  | l :: rest => l ++ "\n" ++ joinNL rest

/-- Newline count of a string. -/
def nlCount (s : String) : Nat := s.data.count '\n'

/-- Number of lines of a message text: its newline count plus one, the
length of the list `text.split("\n")`. -/
def countLines (s : String) : Nat := nlCount s + 1

/-- Predicate: the string contains no newline character. -/
def noNL (s : String) : Prop := '\n' ∉ s.data

instance (s : String) : Decidable (noNL s) :=
  inferInstanceAs (Decidable ('\n' ∉ s.data))

/-- Code points stripped as surrounding whitespace by CPython's `int()`
(Py_UNICODE_ISSPACE, CPython 3.11 / Unicode 14.0). -/
def pyIsSpace (c : Char) : Bool :=
  let n := c.toNat
  (9 ≤ n && n ≤ 13) || n == 32 || n == 0x85 || n == 0xA0 || n == 0x1680 ||
  (0x2000 ≤ n && n ≤ 0x200A) || n == 0x2028 || n == 0x2029 || n == 0x202F ||
  n == 0x205F || n == 0x3000

/-- First code points of the Unicode decimal-digit runs (category Nd):
each run is ten consecutive code points valued 0 to 9, and these are
exactly the digits CPython 3.11's `int()` accepts (Unicode 14.0). -/
def pyDigitStarts : List Nat :=
  [0x30, 0x660, 0x6F0, 0x7C0, 0x966, 0x9E6, 0xA66, 0xAE6, 0xB66, 0xBE6,
   0xC66, 0xCE6, 0xD66, 0xDE6, 0xE50, 0xED0, 0xF20, 0x1040, 0x1090, 0x17E0,
   0x1810, 0x1946, 0x19D0, 0x1A80, 0x1A90, 0x1B50, 0x1BB0, 0x1C40, 0x1C50,
   0xA620, 0xA8D0, 0xA900, 0xA9D0, 0xA9F0, 0xAA50, 0xABF0, 0xFF10, 0x104A0,
   0x10D30, 0x11066, 0x110F0, 0x11136, 0x111D0, 0x112F0, 0x11450, 0x114D0,
   0x11650, 0x116C0, 0x11730, 0x118E0, 0x11950, 0x11C50, 0x11D50, 0x11DA0,
   0x16A60, 0x16AC0, 0x16B50, 0x1D7CE, 0x1D7D8, 0x1D7E2, 0x1D7EC, 0x1D7F6,
   0x1E140, 0x1E2F0, 0x1E950, 0x1FBF0]

/-- Decimal value of a code point under `int()` (any Unicode decimal
digit), `none` for non-digits. -/
def pyDecDigit (c : Char) : Option Nat :=
  (pyDigitStarts.find? (fun r => r ≤ c.toNat && c.toNat ≤ r + 9)).map
    (fun r => c.toNat - r)

/-- Strip the surrounding whitespace that `int()` ignores. -/
def stripSpaces (l : List Char) : List Char :=
  ((l.dropWhile pyIsSpace).reverse.dropWhile pyIsSpace).reverse

/-- Digit run after the first digit, folded left; a single underscore is
allowed between two digits (PEP 515), nothing else. -/
def pyDigitsCore : List Char → Nat → Option Nat
  | [], acc => some acc
  | c :: rest, acc =>
      if c = '_' then
        match rest with
        | [] => none
        | c2 :: rest2 =>
            match pyDecDigit c2 with
            | some d => pyDigitsCore rest2 (acc * 10 + d)
            | none => none
      else
        match pyDecDigit c with
        | some d => pyDigitsCore rest (acc * 10 + d)
        | none => none

/-- A non-empty digit run; the first character must be a digit. -/
def pyDigits : List Char → Option Nat
  | [] => none
  | c :: rest =>
      match pyDecDigit c with
      | some d => pyDigitsCore rest d
      | none => none

/-- Python `int(s)` in base 10 as `callback_router` calls it on the price
field: optional surrounding whitespace, an optional ASCII sign, then a
non-empty run of Unicode decimal digits with single underscores allowed
between digits.  The whitespace set and digit ranges mirror CPython 3.11
(Unicode 14.0). -/
def pyToInt (s : String) : Option Int :=
  match stripSpaces s.data with
  | '-' :: rest => (pyDigits rest).map (fun n => -(n : Int))
  | '+' :: rest => (pyDigits rest).map (fun n => (n : Int))
  | l => (pyDigits l).map (fun n => (n : Int))

/-- The `CARS` table: brand to model list. -/
def CARS : List (String × List String) :=
  [("پراید", ["111", "131", "141"]),
   ("پژو", ["405", "پارس", "207"]),
   ("سمند", ["سورن", "سورن پلاس"])]

/-- The `TIRES_PRICES` table: origin to size/price table. -/
def TIRES_PRICES : List (String × List (String × Int)) :=
  [("خارجی", [("185", 185), ("195", 195), ("205", 205)]),
   ("داخلی", [("185", 185), ("195", 195), ("205", 205)])]

/-- The `OTHER_PARTS_PRICES` table: flat part name to price. -/
def OTHER_PARTS_PRICES : List (String × Int) :=
  [("لایت‌بک خارجی", 205), ("آینه بغل", 120), ("شیشه جلو", 250), ("شیشه عقب", 200)]

/-- An inline keyboard button: display text and callback command. -/
structure Btn where
  text : String
  callback_data : String
  deriving DecidableEq, Repr

/-- An inline keyboard: rows of buttons. -/
abbrev Keyboard := List (List Btn)

/-- Python exceptions that can escape the embedded code. -/
inductive PyErr where
  | unboundLocal
  | valueError
  deriving DecidableEq, Repr

/-- The row chunking `kb = [buttons[i:i+2] for i in range(0, len(buttons), 2)]`. -/
def chunk2 : List Btn → Keyboard
  | [] => []
  | [b] => [[b]]
  | a :: b :: rest => [a, b] :: chunk2 rest

/-- Root menu: one button per brand plus the cart button, two per row. -/
def main_menu_keyboard : Keyboard :=
  chunk2 ((CARS.map (fun p => (⟨p.1, "car|" ++ p.1⟩ : Btn))) ++
    [⟨"🧾 سبد خرید", "view_cart"⟩])

/-- Embedding of `models_keyboard` from the source.  Its first statement,
`kb = [[InlineKeyboardButton(text=m, callback_data=f"model|{car_name}|{m}")]]`,
reads the local variable `m` before the `for m in models` loop below it has
bound it, so every call raises `UnboundLocalError`; the embedding returns
that error. -/
def models_keyboard (car_name : String) : Except PyErr Keyboard :=
  .error .unboundLocal

/-- Option menu for a brand and model: two tire origins, four parts, back,
main menu and cart buttons. -/
def model_options_keyboard (car_name model : String) : Keyboard :=
  [[⟨"لاستیک خارجی", "tires_type|" ++ car_name ++ "|" ++ model ++ "|خارجی"⟩],
   [⟨"لاستیک داخلی", "tires_type|" ++ car_name ++ "|" ++ model ++ "|داخلی"⟩],
   [⟨"لایت‌بک", "part|" ++ car_name ++ "|" ++ model ++ "|لایت‌بک"⟩],
   [⟨"آینه بغل", "part|" ++ car_name ++ "|" ++ model ++ "|آینه بغل"⟩],
   [⟨"شیشه جلو", "part|" ++ car_name ++ "|" ++ model ++ "|شیشه جلو"⟩],
   [⟨"شیشه عقب", "part|" ++ car_name ++ "|" ++ model ++ "|شیشه عقب"⟩],
   [⟨"🔙 برگشت", "back_models|" ++ car_name⟩],
   [⟨"🏠 منو اصلی", "back_main"⟩],
   [⟨"🧾 سبد خرید", "view_cart"⟩]]

/-- Tire size menu: one button per configured size carrying the price. -/
def tires_size_keyboard (car_name model tire_type : String) : Keyboard :=
  ((dictGetD TIRES_PRICES tire_type []).map (fun p =>
     [(⟨p.1 ++ " — " ++ toString p.2 ++ " تومان",
        "add_item|" ++ car_name ++ "|" ++ model ++ "|لاستیک " ++ tire_type ++
          "|" ++ p.1 ++ "|" ++ toString p.2⟩ : Btn)]))
  ++ [[⟨"🔙 برگشت", "back_model_options|" ++ car_name ++ "|" ++ model⟩],
      [⟨"🧾 سبد خرید", "view_cart"⟩]]

/-- Confirm-add screen keyboard: the add button carries the resolved price. -/
def part_confirm_keyboard (car_name model part_name : String) (price : Int) : Keyboard :=
  [[⟨"اضافه به سبد — " ++ toString price ++ " تومان",
     "add_item|" ++ car_name ++ "|" ++ model ++ "|" ++ part_name ++ "|1|" ++ toString price⟩],
   [⟨"🔙 برگشت", "back_model_options|" ++ car_name ++ "|" ++ model⟩],
   [⟨"🧾 سبد خرید", "view_cart"⟩]]

/-- Requesting user's identity, as read from `query.from_user`. -/
structure User where
  id : Nat
  username : Option String
  first_name : String

/-- Key of the user's cart in the document: `str(user_id)`. -/
def userKey (u : User) : String := toString u.id

/-- Embedding of `get_cart`: load the document, create and persist an
empty cart if the user has none, and return the (possibly extended)
document together with the user's cart. -/
def get_cart (carts : CartDoc) (user_id : Nat) : CartDoc × Cart :=
  let key := toString user_id
  match dictGet carts key with
  | some c => (carts, c)
  | none => (dictSet carts key [], [])

/-- Embedding of `update_cart`: replace the user's entry and persist. -/
def update_cart (carts : CartDoc) (user_id : Nat) (cart : Cart) : CartDoc :=
  dictSet carts (toString user_id) cart

/-- Embedding of `clear_cart`: `carts.pop(str(user_id), None)` plus save. -/
def clear_cart (carts : CartDoc) (user_id : Nat) : CartDoc :=
  dictPop carts (toString user_id)

/-- Cart screen keyboard: checkout and clear buttons only when the cart is
non-empty, then the main-menu button.  Calls `get_cart`, which may
lazily create the user's entry, so the document is threaded through. -/
def cart_keyboard (carts : CartDoc) (user_id : Nat) : CartDoc × Keyboard :=
  let r := get_cart carts user_id
  let base : Keyboard :=
    if r.2 ≠ [] then
      [[⟨"ثبت سفارش و ارسال به ادمین", "checkout"⟩],
       [⟨"پاک کردن سبد", "clear_cart"⟩]]
    else []
  (r.1, base ++ [[⟨"🏠 منو اصلی", "back_main"⟩]])

/-- One rendered cart line:
`f"{i}. {car} - {model} - {name} ({meta}) ×{qty} = {subtotal} تومان"`
with `subtotal = price * qty`. -/
def itemLine (i : Nat) (it : Item) : String :=
  toString i ++ ". " ++ it.car ++ " - " ++ it.model ++ " - " ++ it.name ++
    " (" ++ it.meta ++ ") ×" ++ toString it.qty ++ " = " ++
    toString (it.price * it.qty) ++ " تومان"

/-- The trailing `lines.append(f"\nجمع کل: {total} تومان")` line; note the
newline embedded at the start of the source string. -/
def totalLine (total : Int) : String := "\nجمع کل: " ++ toString total ++ " تومان"

/-- The `for i, it in enumerate(items, 1)` loop of `show_cart`,
`handle_checkout` and `cart_command`: builds the numbered item lines
(numbering from `i`) and accumulates the running total (from `total`). -/
def cartFold : Nat → Int → List Item → List String × Int
  | _, total, [] => ([], total)
  | i, total, it :: rest =>
      let subtotal := it.price * it.qty
      let r := cartFold (i + 1) (total + subtotal) rest
      (itemLine i it :: r.1, r.2)

/-- The item lines of the cart rendering. -/
def cartLines (items : Cart) : List String := (cartFold 1 0 items).1

/-- The accumulated grand total of the cart rendering. -/
def cartTotal (items : Cart) : Int := (cartFold 1 0 items).2

/-- The full cart text: item lines then the total line, joined by `"\n"`. -/
def cartText (items : Cart) : String :=
  joinNL (cartLines items ++ [totalLine (cartTotal items)])

/-- A message surfaced to the requesting user: an edited screen with a
keyboard, or a plain reply. -/
inductive Msg where
  | edit : String → Keyboard → Msg
  | reply : String → Msg
  deriving DecidableEq, Repr

/-- Embedding of `show_cart`: renders the empty-cart notice or the cart
text, with the cart keyboard (which loads the cart again). -/
def show_cart (carts : CartDoc) (user_id : Nat) : CartDoc × Msg :=
  let r := get_cart carts user_id
  if r.2 = [] then
    let k := cart_keyboard r.1 user_id
    (k.1, .edit "سبد خرید شما خالی است." k.2)
  else
    let k := cart_keyboard r.1 user_id
    (k.1, .edit (cartText r.2) k.2)

/-- Result of handling one callback: the document after the handler, the
messages surfaced to the user and the messages delivered to the admin. -/
structure Eff where
  doc : CartDoc
  user : List Msg
  admin : List String
  deriving DecidableEq, Repr

/-- Header of the order summary:
`f"سفارش جدید از @{user.username if user.username else user.first_name} (id: {user_id})"`
(an empty username is falsy in Python, hence the extra test). -/
def checkoutHeader (u : User) : String :=
  "سفارش جدید از @" ++
    (match u.username with
     | some s => if s = "" then u.first_name else s
     | none => u.first_name) ++
    " (id: " ++ toString u.id ++ ")"

/-- The order summary text sent to the admin: header, item lines, total
line, joined by `"\n"`. -/
def orderText (u : User) (items : Cart) : String :=
  joinNL ((checkoutHeader u :: cartLines items) ++ [totalLine (cartTotal items)])

/-- Embedding of `handle_checkout`; `sendOk` tells whether
`bot.send_message` to the admin succeeds (`False` models the exception,
which the source catches and turns into a retry-later reply). -/
def handle_checkout (u : User) (sendOk : Bool) (carts : CartDoc) : Eff :=
  let r := get_cart carts u.id
  if r.2 = [] then
    ⟨r.1, [.reply "سبد خرید خالی است."], []⟩
  else if sendOk then
    ⟨clear_cart r.1 u.id,
     [.reply "✅ سفارش شما با موفقیت ارسال شد. ما به زودی با شما تماس می‌گیریم."],
     [orderText u r.2]⟩
  else
    ⟨r.1, [.reply "خطا در ارسال سفارش. لطفا بعداً دوباره تلاش کن."], []⟩

/-- Embedding of `callback_router`, the single dispatch over the callback
command string.  Python exceptions raised inside a branch (the unbound
`m` of `models_keyboard`, tuple-unpacking `ValueError`s, `int()` failures)
are `Except.error`; every raising statement precedes any cart write, so an
error leaves the document untouched. -/
def callback_router (u : User) (sendOk : Bool) (data : String) (carts : CartDoc) :
    Except PyErr Eff :=
  if data = "view_cart" then
    let r := show_cart carts u.id
    .ok ⟨r.1, [r.2], []⟩
  else if data = "back_main" then
    .ok ⟨carts, [.edit "منو اصلی:" main_menu_keyboard], []⟩
  else if pyStartsWith data "car|" then
    match pySplit data '|' 1 with
    | [_, car_name] =>
        match models_keyboard car_name with
        | .ok kb => .ok ⟨carts, [.edit ("مدل‌های " ++ car_name ++ ":") kb], []⟩
        | .error e => .error e
    | _ => .error .valueError
  else if pyStartsWith data "model|" then
    match pySplit data '|' 2 with
    | [_, car_name, model] =>
        .ok ⟨carts, [.edit ("انتخاب برای " ++ car_name ++ " — " ++ model ++ ":")
                       (model_options_keyboard car_name model)], []⟩
    | _ => .error .valueError
  else if pyStartsWith data "tires_type|" then
    match pySplit data '|' 3 with
    | [_, car_name, model, tire_type] =>
        .ok ⟨carts, [.edit ("لاستیک " ++ tire_type ++ " — انتخاب سایز:")
                       (tires_size_keyboard car_name model tire_type)], []⟩
    | _ => .error .valueError
  else if pyStartsWith data "part|" then
    match pySplit data '|' 3 with
    | [_, car_name, model, part_key] =>
        if part_key = "لایت‌بک" then
          let price := dictGetD OTHER_PARTS_PRICES "لایت‌بک خارجی" 205
          .ok ⟨carts, [.edit (part_key ++ " — قیمت: " ++ toString price ++ " تومان")
                         (part_confirm_keyboard car_name model "لایت‌بک خارجی" price)], []⟩
        else
          let price := dictGetD OTHER_PARTS_PRICES part_key 100
          .ok ⟨carts, [.edit (part_key ++ " — قیمت: " ++ toString price ++ " تومان")
                         (part_confirm_keyboard car_name model part_key price)], []⟩
    | _ => .error .valueError
  else if pyStartsWith data "add_item|" then
    let parts := pySplitAll data '|'
    if parts.length < 6 then
      .ok ⟨carts, [.reply "دادهٔ محصول نامعتبر است."], []⟩
    else
      match parts with
      | [_, car_name, model, item_name, meta, price_str] =>
          match pyToInt price_str with
          | none => .error .valueError
          | some price =>
              let item : Item := ⟨car_name, model, item_name, meta, price, 1⟩
              let r := get_cart carts u.id
              let cart_items := r.2 ++ [item]
              .ok ⟨update_cart r.1 u.id cart_items,
                   [.reply ("✅ \x27" ++ item_name ++ " (" ++ meta ++
                      ")\x27 به سبد اضافه شد — " ++ toString price ++ " تومان")], []⟩
      | _ => .error .valueError
  else if data = "clear_cart" then
    .ok ⟨clear_cart carts u.id, [.reply "🗑️ سبد خرید پاک شد."], []⟩
  else if data = "checkout" then
    .ok (handle_checkout u sendOk carts)
  else if pyStartsWith data "back_models|" then
    match pySplit data '|' 1 with
    | [_, car_name] =>
        match models_keyboard car_name with
        | .ok kb => .ok ⟨carts, [.edit ("مدل‌های " ++ car_name ++ ":") kb], []⟩
        | .error e => .error e
    | _ => .error .valueError
  else if pyStartsWith data "back_model_options|" then
    match pySplit data '|' 2 with
    | [_, car_name, model] =>
        .ok ⟨carts, [.edit ("انتخاب برای " ++ car_name ++ " — " ++ model ++ ":")
                       (model_options_keyboard car_name model)], []⟩
    | _ => .error .valueError
  else
    .ok ⟨carts, [.reply "عملیات نامعتبر یا منقضی شده. از منو استفاده کن."], []⟩

/-- The items of the user's cart in a document (empty when absent). -/
def cartItems (carts : CartDoc) (key : String) : Cart := dictGetD carts key []

/-- The item count of the user's cart in a document. -/
def cartCount (carts : CartDoc) (key : String) : Nat := (cartItems carts key).length

/-- One delivered callback: the command string, and whether an admin send
attempted while handling it would succeed. -/
abbrev Event := String × Bool

/-- Document after routing one callback.  Every raising statement of the
source precedes any cart write, so an error leaves the document as it was. -/
def stepDoc (u : User) (carts : CartDoc) (e : Event) : CartDoc :=
  match callback_router u e.2 e.1 carts with
  | .ok eff => eff.doc
  | .error _ => carts

/-- Document after routing a sequence of callbacks of one user. -/
def runEvents (u : User) (carts : CartDoc) (evs : List Event) : CartDoc :=
  evs.foldl (stepDoc u) carts

/-- Expected evolution of the user's item count over one event: a
successfully parsed `add_item` adds one, `clear_cart` resets to zero,
`checkout` with a successful send resets to zero (the cart is cleared, or
was already empty), and every other command leaves the count unchanged.
The branch order mirrors `callback_router`. -/
def stepCount (c : Nat) (e : Event) : Nat :=
  let data := e.1
  if data = "view_cart" then c
  else if data = "back_main" then c
  else if pyStartsWith data "car|" then c
  else if pyStartsWith data "model|" then c
  else if pyStartsWith data "tires_type|" then c
  else if pyStartsWith data "part|" then c
  else if pyStartsWith data "add_item|" then
    let parts := pySplitAll data '|'
    if parts.length < 6 then c
    else
      match parts with
      | [_, _, _, _, _, price_str] =>
          match pyToInt price_str with
          | none => c
          | some _ => c + 1
      | _ => c
  else if data = "clear_cart" then 0
  else if data = "checkout" then (if e.2 then 0 else c)
  else c

/-- Number of successful `add_item` commands since the last `clear_cart`
or checkout with a successful send (counting from the start of the
sequence when no such reset occurs). -/
def addsSinceReset (evs : List Event) : Nat := evs.foldl stepCount 0

/-- JSON values, modelling what `json.dump` writes and `json.load` reads
for the cart document (only the shapes the document uses). -/
inductive Json where
  | str : String → Json
  | num : Int → Json
  | arr : List Json → Json
  | obj : List (String × Json) → Json

/-- JSON encoding of one cart item. -/
def encodeItem (it : Item) : Json :=
  .obj [("car", .str it.car), ("model", .str it.model), ("name", .str it.name),
        ("meta", .str it.meta), ("price", .num it.price), ("qty", .num it.qty)]

/-- JSON encoding of one cart: the `{"items": [...]}` wrapper. -/
def encodeCart (c : Cart) : Json :=
  .obj [("items", .arr (c.map encodeItem))]

/-- Embedding of `save_carts`: `json.dump(carts, f)`; the contents of
`carts.json` are modelled as the JSON value written. -/
def save_carts (d : CartDoc) : Json :=
  .obj (d.map (fun p => (p.1, encodeCart p.2)))

/-- Reading one item back from the loaded JSON, by field lookup as the
source does (`it.get("car")` and so on). -/
def decodeItem : Json → Option Item
  | .obj fs =>
      match dictGet fs "car", dictGet fs "model", dictGet fs "name",
            dictGet fs "meta", dictGet fs "price", dictGet fs "qty" with
      | some (.str a), some (.str b), some (.str c), some (.str d),
        some (.num p), some (.num q) => some ⟨a, b, c, d, p, q⟩
      | _, _, _, _, _, _ => none
  | _ => none

/-- Reading an item list back, in order. -/
def decodeItems : List Json → Option (List Item)
  | [] => some []
  | j :: rest =>
      match decodeItem j, decodeItems rest with
      | some it, some its => some (it :: its)
      | _, _ => none

/-- Reading one cart back through its `items` key. -/
def decodeCart : Json → Option Cart
  | .obj fs =>
      match dictGet fs "items" with
      | some (.arr xs) => decodeItems xs
      | _ => none
  | _ => none

/-- Reading the entries of the document back, in order. -/
def decodeEntries : List (String × Json) → Option CartDoc
  | [] => some []
  | (k, v) :: rest =>
      match decodeCart v, decodeEntries rest with
      | some c, some d => some ((k, c) :: d)
      | _, _ => none

/-- Embedding of `load_carts` on a present, well-formed file:
`json.load(f)` of the stored JSON value, read back as a cart document.
(A missing or unparseable file is returned as `{}` by the source; that
path is outside the round-trip claim.) -/
def load_carts : Json → Option CartDoc
  | .obj entries => decodeEntries entries
  | _ => none

end CarsBot

namespace CarsBot

/-! Association-list (Python dict) lemmas. -/

theorem dictGet_dictSet_self {α : Type} (d : List (String × α)) (k : String) (v : α) :
    dictGet (dictSet d k v) k = some v := by
  induction d with
  | nil => simp [dictGet, dictSet]
  | cons p rest ih =>
      obtain ⟨k', w⟩ := p
      by_cases h : k' = k
      · subst h; simp [dictSet, dictGet]
      · simp [dictSet, dictGet, h, ih]

theorem dictGet_dictPop_self {α : Type} (d : List (String × α)) (k : String) :
    dictGet (dictPop d k) k = none := by
  induction d with
  | nil => rfl
  | cons p rest ih =>
      obtain ⟨k', w⟩ := p
      by_cases h : k' = k
      · simpa [dictPop, List.filter_cons, h] using ih
      · simpa [dictPop, List.filter_cons, h, dictGet] using ih

theorem cartItems_update (d : CartDoc) (uid : Nat) (xs : Cart) :
    cartItems (update_cart d uid xs) (toString uid) = xs := by
  unfold cartItems update_cart dictGetD
  rw [dictGet_dictSet_self]
  rfl

theorem cartItems_clear (d : CartDoc) (uid : Nat) :
    cartItems (clear_cart d uid) (toString uid) = [] := by
  unfold cartItems clear_cart dictGetD
  rw [dictGet_dictPop_self]
  rfl

theorem get_cart_items (carts : CartDoc) (uid : Nat) :
    (get_cart carts uid).2 = cartItems carts (toString uid) := by
  unfold get_cart cartItems dictGetD
  cases h : dictGet carts (toString uid) <;> simp [h]

theorem get_cart_doc_items (carts : CartDoc) (uid : Nat) :
    cartItems ((get_cart carts uid).1) (toString uid) = cartItems carts (toString uid) := by
  unfold get_cart cartItems dictGetD
  cases h : dictGet carts (toString uid) <;> simp [h, dictGet_dictSet_self]

/-! Branch-selection helpers. -/

theorem router_checkout (u : User) (sendOk : Bool) (carts : CartDoc) :
    callback_router u sendOk "checkout" carts = .ok (handle_checkout u sendOk carts) := by
  rfl

end CarsBot

namespace CarsBot

/-! String-prefix exclusion lemmas: two incomparable literal prefixes
cannot both match, which drives branch selection in the router proofs. -/

theorem isPrefixOf_comparable (c : List Char) :
    ∀ a b : List Char, a.isPrefixOf c = true → b.isPrefixOf c = true →
      (a.isPrefixOf b || b.isPrefixOf a) = true := by
  induction c with
  | nil =>
      intro a b ha hb
      cases a <;> cases b <;> simp_all [List.isPrefixOf]
  | cons x xs ih =>
      intro a b ha hb
      cases a with
      | nil => simp [List.isPrefixOf]
      | cons a0 as =>
          cases b with
          | nil => simp [List.isPrefixOf]
          | cons b0 bs =>
              simp only [List.isPrefixOf_cons₂, Bool.and_eq_true, beq_iff_eq] at ha hb
              obtain ⟨ha0, ha1⟩ := ha
              obtain ⟨hb0, hb1⟩ := hb
              subst ha0
              subst hb0
              simp only [List.isPrefixOf_cons₂, beq_self_eq_true, Bool.true_and]
              exact ih as bs ha1 hb1

theorem pyStartsWith_excl {s p q : String}
    (hp : pyStartsWith s p = true)
    (hpq : (p.data.isPrefixOf q.data || q.data.isPrefixOf p.data) = false) :
    pyStartsWith s q = false := by
  by_contra hq
  rw [Bool.not_eq_false] at hq
  have h := isPrefixOf_comparable s.data p.data q.data hp hq
  rw [h] at hpq
  cases hpq

theorem startsWith_ne_lit {data lit p : String}
    (hp : pyStartsWith data p = true) (h : pyStartsWith lit p = false) :
    data ≠ lit := by
  intro e
  rw [e, h] at hp
  cases hp

/-! Newline-counting lemmas, used for the line count of the admin message. -/

theorem nlCount_append (a b : String) : nlCount (a ++ b) = nlCount a + nlCount b := by
  simp [nlCount, String.data_append, List.count_append]

theorem noNL_count {s : String} (h : noNL s) : nlCount s = 0 := by
  simpa [nlCount, List.count_eq_zero] using h

theorem digitChar_ne_nl (n : Nat) : Nat.digitChar n ≠ '\n' := by
  by_cases h : n < 16
  · interval_cases n <;> decide
  · unfold Nat.digitChar
    repeat rw [if_neg (by omega)]
    decide

theorem toDigitsCore_no_nl :
    ∀ (fuel n : Nat) (acc : List Char), '\n' ∉ acc →
      '\n' ∉ Nat.toDigitsCore 10 fuel n acc := by
  intro fuel
  induction fuel with
  | zero => intro n acc h; simpa [Nat.toDigitsCore] using h
  | succ f ih =>
      intro n acc h
      have hd : '\n' ∉ Nat.digitChar (n % 10) :: acc := by
        intro hm
        rcases List.mem_cons.mp hm with h1 | h1
        · exact digitChar_ne_nl (n % 10) h1.symm
        · exact h h1
      simp only [Nat.toDigitsCore]
      split
      · exact hd
      · exact ih (n / 10) (Nat.digitChar (n % 10) :: acc) hd

theorem natRepr_no_nl (n : Nat) : '\n' ∉ (Nat.repr n).data :=
  toDigitsCore_no_nl (n + 1) n [] (by simp)

theorem nlCount_toString_nat (n : Nat) : nlCount (toString n) = 0 :=
  noNL_count (natRepr_no_nl n)

theorem nlCount_toString_int (i : Int) : nlCount (toString i) = 0 := by
  cases i with
  | ofNat m => exact nlCount_toString_nat m
  | negSucc m =>
      show nlCount ("-" ++ toString (m + 1)) = 0
      rw [nlCount_append, nlCount_toString_nat]
      decide

theorem nlCount_joinNL : ∀ ls : List String, ls ≠ [] →
    nlCount (joinNL ls) = (ls.map nlCount).sum + (ls.length - 1) := by
  intro ls
  induction ls with
  | nil => intro h; cases h rfl
  | cons l rest ih =>
      intro _
      cases rest with
      | nil => simp [joinNL]
      | cons l2 r2 =>
          show nlCount (l ++ "\n" ++ joinNL (l2 :: r2)) = _
          rw [nlCount_append, nlCount_append, ih (by simp)]
          have h1 : nlCount "\n" = 1 := by decide
          rw [h1]
          simp only [List.map_cons, List.sum_cons, List.length_cons]
          omega

end CarsBot

namespace CarsBot

theorem nlCount_itemLine (i : Nat) (it : Item)
    (hc : noNL it.car) (hm : noNL it.model) (hn : noNL it.name) (hme : noNL it.meta) :
    nlCount (itemLine i it) = 0 := by
  unfold itemLine
  simp only [nlCount_append, nlCount_toString_nat, nlCount_toString_int,
    noNL_count hc, noNL_count hm, noNL_count hn, noNL_count hme]
  decide

theorem nlCount_totalLine (t : Int) : nlCount (totalLine t) = 1 := by
  unfold totalLine
  simp only [nlCount_append, nlCount_toString_int]
  decide

theorem nlCount_checkoutHeader (u : User)
    (hf : noNL u.first_name) (hu : ∀ s, u.username = some s → noNL s) :
    nlCount (checkoutHeader u) = 0 := by
  unfold checkoutHeader
  cases h : u.username with
  | none =>
      simp only [nlCount_append, nlCount_toString_nat, noNL_count hf]
      decide
  | some s =>
      have hs : noNL s := hu s h
      by_cases he : s = ""
      · simp only [he, eq_self_iff_true, if_true, nlCount_append, nlCount_toString_nat,
          noNL_count hf]
        decide
      · simp only [if_neg he, nlCount_append, nlCount_toString_nat, noNL_count hs]
        decide

/-! Lemmas about the cart-rendering fold. -/

theorem cartFold_snd : ∀ (items : List Item) (i : Nat) (t : Int),
    (cartFold i t items).2 = t + (items.map (fun it => it.price * it.qty)).sum := by
  intro items
  induction items with
  | nil => intro i t; simp [cartFold]
  | cons it rest ih =>
      intro i t
      simp only [cartFold, List.map_cons, List.sum_cons, ih]
      ring

theorem cartFold_length : ∀ (items : List Item) (i : Nat) (t : Int),
    (cartFold i t items).1.length = items.length := by
  intro items
  induction items with
  | nil => intro i t; rfl
  | cons it rest ih => intro i t; simp [cartFold, ih]

theorem cartFold_fst_get : ∀ (items : List Item) (i : Nat) (t : Int) (k : Nat),
    (cartFold i t items).1.get? k = (items.get? k).map (fun it => itemLine (i + k) it) := by
  intro items
  induction items with
  | nil => intro i t k; simp [cartFold]
  | cons it rest ih =>
      intro i t k
      cases k with
      | zero => simp [cartFold]
      | succ k' =>
          have harith : i + 1 + k' = i + (k' + 1) := by omega
          simp only [cartFold, List.get?_cons_succ, ih rest.length.succ.pred, harith]
          rw [ih (i + 1) (t + it.price * it.qty) k', harith]

theorem cartFold_mem : ∀ (items : List Item) (i : Nat) (t : Int) (l : String),
    l ∈ (cartFold i t items).1 → ∃ j it, it ∈ items ∧ l = itemLine j it := by
  intro items
  induction items with
  | nil => intro i t l h; simp [cartFold] at h
  | cons it rest ih =>
      intro i t l h
      simp only [cartFold, List.mem_cons] at h
      rcases h with h | h
      · exact ⟨i, it, List.mem_cons_self it rest, h⟩
      · obtain ⟨j, it', hmem, hl⟩ := ih (i + 1) (t + it.price * it.qty) l h
        exact ⟨j, it', List.mem_cons_of_mem it hmem, hl⟩

theorem nlCount_cartLines (items : Cart)
    (hits : ∀ it ∈ items, noNL it.car ∧ noNL it.model ∧ noNL it.name ∧ noNL it.meta) :
    ∀ l ∈ cartLines items, nlCount l = 0 := by
  intro l hl
  obtain ⟨j, it, hmem, rfl⟩ := cartFold_mem items 1 0 l hl
  obtain ⟨hc, hm, hn, hme⟩ := hits it hmem
  exact nlCount_itemLine j it hc hm hn hme

theorem countLines_orderText (u : User) (items : Cart)
    (hf : noNL u.first_name) (hu : ∀ s, u.username = some s → noNL s)
    (hits : ∀ it ∈ items, noNL it.car ∧ noNL it.model ∧ noNL it.name ∧ noNL it.meta) :
    countLines (orderText u items) = items.length + 3 := by
  unfold countLines orderText
  rw [nlCount_joinNL _ (by simp)]
  have hlines : (List.map nlCount (cartLines items)).sum = 0 :=
    List.sum_eq_zero (by
      intro x hx
      obtain ⟨l, hl, rfl⟩ := List.mem_map.mp hx
      exact nlCount_cartLines items hits l hl)
  have hlen : (cartLines items).length = items.length := cartFold_length items 1 0
  simp only [List.map_append, List.map_cons, List.sum_cons, List.sum_append,
    List.map_nil, List.sum_nil, List.length_append, List.length_cons, List.length_nil,
    nlCount_checkoutHeader u hf hu, nlCount_totalLine, hlines, hlen]
  omega

end CarsBot

namespace CarsBot

/-! Claim C2. -/

/-- Claim C2: routing `checkout` on a non-empty cart when the admin send
fails leaves the whole document (hence the cart's items and their order)
unchanged, sends nothing to the admin, and replies with the retry-later
failure message. -/
theorem checkout_failure_preserves_cart (u : User) (carts : CartDoc) (items : Cart)
    (h1 : dictGet carts (userKey u) = some items) (h2 : items ≠ []) :
    callback_router u false "checkout" carts =
      .ok ⟨carts, [.reply "خطا در ارسال سفارش. لطفا بعداً دوباره تلاش کن."], []⟩ ∧
    cartItems carts (userKey u) = items := by
  have h1' : dictGet carts (toString u.id) = some items := h1
  constructor
  · rw [router_checkout]
    simp [handle_checkout, get_cart, h1', h2]
  · simp [cartItems, dictGetD, h1]

/-- Witness for C2 at a concrete one-item cart. -/
theorem checkout_failure_preserves_cart_witness :
    callback_router ⟨7, none, "Ali"⟩ false "checkout" [("7", [⟨"a", "b", "c", "d", 5, 1⟩])] =
      .ok ⟨[("7", [⟨"a", "b", "c", "d", 5, 1⟩])],
           [.reply "خطا در ارسال سفارش. لطفا بعداً دوباره تلاش کن."], []⟩ :=
  (checkout_failure_preserves_cart ⟨7, none, "Ali"⟩ [("7", [⟨"a", "b", "c", "d", 5, 1⟩])]
    [⟨"a", "b", "c", "d", 5, 1⟩] (by decide) (by decide)).1

/-! Claim C6. -/

/-- Claim C6: routing `checkout` with an empty cart only reports that the
cart is empty: no admin message is delivered, and the user's cart stays
empty (at most, `get_cart` lazily persists the empty entry). -/
theorem checkout_empty_noop (u : User) (sendOk : Bool) (carts : CartDoc)
    (h : cartItems carts (userKey u) = []) :
    callback_router u sendOk "checkout" carts =
      .ok ⟨(get_cart carts u.id).1, [.reply "سبد خرید خالی است."], []⟩ ∧
    cartItems ((get_cart carts u.id).1) (userKey u) = [] := by
  have h' : cartItems carts (toString u.id) = [] := h
  have hr : (get_cart carts u.id).2 = [] := (get_cart_items carts u.id).trans h'
  constructor
  · rw [router_checkout]
    simp [handle_checkout, hr]
  · exact (get_cart_doc_items carts u.id).trans h'

/-- Witness for C6: empty document, checkout under both send outcomes is
the empty-cart reply. -/
theorem checkout_empty_noop_witness :
    callback_router ⟨9, none, "Bob"⟩ true "checkout" [] =
      .ok ⟨(get_cart [] 9).1, [.reply "سبد خرید خالی است."], []⟩ :=
  (checkout_empty_noop ⟨9, none, "Bob"⟩ true [] (by decide)).1

/-! Claim C1 (corrected). -/

/-- Counterexample to C1 as stated: with a one-item cart and a successful
send, the single delivered admin message has 4 newline-separated lines,
not 1 + 2 — the source embeds a blank line before the total line. -/
theorem checkout_line_count_cex :
    ¬ ((callback_router ⟨7, some "ali", "Ali"⟩ true "checkout"
          [("7", [⟨"a", "b", "c", "d", 5, 1⟩])]).toOption.map (fun e => e.admin.map countLines)
        = some [(cartItems [("7", [⟨"a", "b", "c", "d", 5, 1⟩])] "7").length + 2]) := by
  decide

/-- Claim C1 (amended): routing `checkout` on a non-empty cart with the
admin send succeeding removes the user's cart entry, confirms to the user,
and delivers exactly one admin message; that message's line count is the
item count plus 3: a header line, one line per item, the blank line the
source embeds before the total, and the total line. -/
theorem checkout_success_clears_and_notifies (u : User) (carts : CartDoc) (items : Cart)
    (h1 : dictGet carts (userKey u) = some items) (h2 : items ≠ [])
    (hf : noNL u.first_name) (hu : ∀ s, u.username = some s → noNL s)
    (hits : ∀ it ∈ items, noNL it.car ∧ noNL it.model ∧ noNL it.name ∧ noNL it.meta) :
    callback_router u true "checkout" carts =
      .ok ⟨clear_cart carts u.id,
           [.reply "✅ سفارش شما با موفقیت ارسال شد. ما به زودی با شما تماس می‌گیریم."],
           [orderText u items]⟩ ∧
    dictGet (clear_cart carts u.id) (userKey u) = none ∧
    countLines (orderText u items) = items.length + 3 := by
  have h1' : dictGet carts (toString u.id) = some items := h1
  refine ⟨?_, dictGet_dictPop_self carts (userKey u), countLines_orderText u items hf hu hits⟩
  rw [router_checkout]
  simp [handle_checkout, get_cart, h1', h2]

/-- Witness for the amended C1 at a concrete one-item cart. -/
theorem checkout_success_clears_and_notifies_witness :
    countLines (orderText ⟨7, some "ali", "Ali"⟩ [⟨"a", "b", "c", "d", 5, 1⟩]) =
      ([⟨"a", "b", "c", "d", 5, 1⟩] : Cart).length + 3 :=
  (checkout_success_clears_and_notifies ⟨7, some "ali", "Ali"⟩
    [("7", [⟨"a", "b", "c", "d", 5, 1⟩])] [⟨"a", "b", "c", "d", 5, 1⟩]
    (by decide) (by decide) (by decide)
    (fun s hs => by cases hs; decide) (by decide)).2.2

/-! Claim C8 (code bug). -/

/-- Claim C8: the model menu is never rendered at all — `models_keyboard`
reads the loop variable `m` before the loop binds it and raises
`UnboundLocalError` for every brand, here evaluated at the first brand. -/
theorem models_keyboard_raises :
    models_keyboard "پراید" = .error .unboundLocal := rfl

/-! Claim C7. -/

theorem decodeItem_encodeItem (it : Item) : decodeItem (encodeItem it) = some it := rfl

theorem decodeItems_map (c : Cart) : decodeItems (c.map encodeItem) = some c := by
  induction c with
  | nil => rfl
  | cons it rest ih => simp [decodeItems, decodeItem_encodeItem, ih]

theorem decodeCart_encodeCart (c : Cart) : decodeCart (encodeCart c) = some c := by
  simp [decodeCart, encodeCart, dictGet, decodeItems_map]

theorem decodeEntries_map (d : CartDoc) :
    decodeEntries (d.map (fun p => (p.1, encodeCart p.2))) = some d := by
  induction d with
  | nil => rfl
  | cons p rest ih =>
      obtain ⟨k, c⟩ := p
      simp [decodeEntries, decodeCart_encodeCart, ih]

/-- Claim C7: persisting any cart document and loading it back yields the
identical mapping — same user keys in the same order, each cart's items in
order with all six fields intact. -/
theorem save_load_roundtrip (d : CartDoc) : load_carts (save_carts d) = some d :=
  decodeEntries_map d

end CarsBot

namespace CarsBot

/-! Claim C9. -/

/-- Claim C9: a `part|` command whose part key is neither a key of
`OTHER_PARTS_PRICES` nor the special lightback key renders the confirm-add
screen with the fallback price 100 (both in the shown text and in the add
button's payload) instead of rejecting the command. -/
theorem unknown_part_fallback_price (u : User) (sendOk : Bool) (carts : CartDoc)
    (data car_name model part_key : String)
    (hp : pyStartsWith data "part|" = true)
    (hsp : pySplit data '|' 3 = ["part", car_name, model, part_key])
    (hk : dictGet OTHER_PARTS_PRICES part_key = none)
    (hl : part_key ≠ "لایت‌بک") :
    callback_router u sendOk data carts =
      .ok ⟨carts, [.edit (part_key ++ " — قیمت: " ++ toString (100 : Int) ++ " تومان")
                     (part_confirm_keyboard car_name model part_key 100)], []⟩ := by
  have e1 : data ≠ "view_cart" := startsWith_ne_lit hp (by decide)
  have e2 : data ≠ "back_main" := startsWith_ne_lit hp (by decide)
  have e3 : pyStartsWith data "car|" = false := pyStartsWith_excl hp (by decide)
  have e4 : pyStartsWith data "model|" = false := pyStartsWith_excl hp (by decide)
  have e5 : pyStartsWith data "tires_type|" = false := pyStartsWith_excl hp (by decide)
  simp [callback_router, e1, e2, e3, e4, e5, hp, hsp, hl, dictGetD, hk]

/-- Witness for C9: the unknown key `zzz` is offered at price 100. -/
theorem unknown_part_fallback_price_witness :
    callback_router ⟨7, none, "Ali"⟩ true "part|b|m|zzz" [] =
      .ok ⟨[], [.edit ("zzz" ++ " — قیمت: " ++ toString (100 : Int) ++ " تومان")
                  (part_confirm_keyboard "b" "m" "zzz" 100)], []⟩ :=
  unknown_part_fallback_price ⟨7, none, "Ali"⟩ true [] "part|b|m|zzz" "b" "m" "zzz"
    (by decide) (by decide) (by decide) (by decide)

/-! Claim C10. -/

/-- Claim C10: every item appended by a successfully parsed `add_item`
command has quantity exactly 1; the `meta` field is stored verbatim and is
never interpreted as a quantity (even when numeric), so the item's
subtotal `price * qty` equals its unit price. -/
theorem added_item_qty_one (u : User) (sendOk : Bool) (carts : CartDoc)
    (data a car_name model item_name meta price_str : String) (price : Int)
    (hp : pyStartsWith data "add_item|" = true)
    (hsp : pySplitAll data '|' = [a, car_name, model, item_name, meta, price_str])
    (hint : pyToInt price_str = some price) :
    callback_router u sendOk data carts =
      .ok ⟨update_cart ((get_cart carts u.id).1) u.id
             ((get_cart carts u.id).2 ++ [⟨car_name, model, item_name, meta, price, 1⟩]),
           [.reply ("✅ \x27" ++ item_name ++ " (" ++ meta ++ ")\x27 به سبد اضافه شد — "
              ++ toString price ++ " تومان")], []⟩
    ∧ cartItems (update_cart ((get_cart carts u.id).1) u.id
          ((get_cart carts u.id).2 ++ [⟨car_name, model, item_name, meta, price, 1⟩]))
        (userKey u)
        = cartItems carts (userKey u) ++ [⟨car_name, model, item_name, meta, price, 1⟩]
    ∧ (⟨car_name, model, item_name, meta, price, 1⟩ : Item).qty = 1
    ∧ (⟨car_name, model, item_name, meta, price, 1⟩ : Item).price *
        (⟨car_name, model, item_name, meta, price, 1⟩ : Item).qty = price := by
  have e1 : data ≠ "view_cart" := startsWith_ne_lit hp (by decide)
  have e2 : data ≠ "back_main" := startsWith_ne_lit hp (by decide)
  have e3 : pyStartsWith data "car|" = false := pyStartsWith_excl hp (by decide)
  have e4 : pyStartsWith data "model|" = false := pyStartsWith_excl hp (by decide)
  have e5 : pyStartsWith data "tires_type|" = false := pyStartsWith_excl hp (by decide)
  have e6 : pyStartsWith data "part|" = false := pyStartsWith_excl hp (by decide)
  refine ⟨?_, ?_, rfl, mul_one price⟩
  · simp [callback_router, e1, e2, e3, e4, e5, e6, hp, hsp, hint]
  · show cartItems (update_cart ((get_cart carts u.id).1) u.id
          ((get_cart carts u.id).2 ++ [⟨car_name, model, item_name, meta, price, 1⟩]))
        (toString u.id)
        = cartItems carts (toString u.id) ++ [⟨car_name, model, item_name, meta, price, 1⟩]
    rw [cartItems_update, get_cart_items]

/-- Witness for C10: a numeric meta field `4` is stored verbatim and the
quantity is still 1. -/
theorem added_item_qty_one_witness :
    callback_router ⟨7, none, "Ali"⟩ true "add_item|b|m|n|4|12" [] =
      .ok ⟨update_cart ((get_cart [] 7).1) 7 ((get_cart [] 7).2 ++ [⟨"b", "m", "n", "4", 12, 1⟩]),
           [.reply ("✅ \x27" ++ "n" ++ " (" ++ "4" ++ ")\x27 به سبد اضافه شد — "
              ++ toString (12 : Int) ++ " تومان")], []⟩ :=
  (added_item_qty_one ⟨7, none, "Ali"⟩ true [] "add_item|b|m|n|4|12" "add_item" "b" "m" "n" "4"
    "12" 12 (by decide) (by decide) (by decide)).1

end CarsBot

namespace CarsBot

/-- Helper: a raised exception is not `ok`. -/
theorem isOk_error (e : PyErr) : (Except.error e : Except PyErr Eff).isOk = false := rfl

end CarsBot

namespace CarsBot

/-! Document-preservation lemmas feeding the cart-count invariant. -/

theorem show_cart_doc (carts : CartDoc) (uid : Nat) :
    (show_cart carts uid).1 = (get_cart ((get_cart carts uid).1) uid).1 := by
  by_cases h : (get_cart carts uid).2 = [] <;> simp [show_cart, cart_keyboard, h]

theorem cartItems_show_cart (carts : CartDoc) (uid : Nat) :
    cartItems ((show_cart carts uid).1) (toString uid) = cartItems carts (toString uid) := by
  rw [show_cart_doc, get_cart_doc_items, get_cart_doc_items]

theorem cartCount_after_add (carts : CartDoc) (uid : Nat) (item : Item) :
    cartCount (update_cart ((get_cart carts uid).1) uid ((get_cart carts uid).2 ++ [item]))
        (toString uid) = cartCount carts (toString uid) + 1 := by
  unfold cartCount
  rw [cartItems_update, get_cart_items]
  simp

/-- One-step simulation: routing any single callback changes the user's
item count exactly as `stepCount` predicts (add one on a successfully
parsed `add_item`, reset on `clear_cart` and on checkout with a successful
send, unchanged otherwise — raising branches never reach a cart write). -/
theorem cartCount_stepDoc (u : User) (carts : CartDoc) (e : Event) :
    cartCount (stepDoc u carts e) (userKey u) =
      stepCount (cartCount carts (userKey u)) e := by
  obtain ⟨data, sOk⟩ := e
  unfold userKey
  by_cases h1 : data = "view_cart"
  · subst h1
    have hd : stepDoc u carts ("view_cart", sOk) = (show_cart carts u.id).1 := rfl
    have hc : stepCount (cartCount carts (toString u.id)) ("view_cart", sOk) =
        cartCount carts (toString u.id) := rfl
    rw [hd, hc]
    exact congrArg List.length (cartItems_show_cart carts u.id)
  by_cases h2 : data = "back_main"
  · subst h2; rfl
  by_cases h3 : pyStartsWith data "car|" = true
  · have hc : stepCount (cartCount carts (toString u.id)) (data, sOk) =
        cartCount carts (toString u.id) := by simp [stepCount, h1, h2, h3]
    rw [hc]
    unfold stepDoc
    rcases hsp : pySplit data '|' 1 with _ | ⟨a, _ | ⟨b, _ | ⟨c, r⟩⟩⟩ <;>
      simp [callback_router, h1, h2, h3, hsp, models_keyboard]
  by_cases h4 : pyStartsWith data "model|" = true
  · have hc : stepCount (cartCount carts (toString u.id)) (data, sOk) =
        cartCount carts (toString u.id) := by simp [stepCount, h1, h2, h3, h4]
    rw [hc]
    unfold stepDoc
    rcases hsp : pySplit data '|' 2 with _ | ⟨a, _ | ⟨b, _ | ⟨c, _ | ⟨d, r⟩⟩⟩⟩ <;>
      simp [callback_router, h1, h2, h3, h4, hsp]
  by_cases h5 : pyStartsWith data "tires_type|" = true
  · have hc : stepCount (cartCount carts (toString u.id)) (data, sOk) =
        cartCount carts (toString u.id) := by simp [stepCount, h1, h2, h3, h4, h5]
    rw [hc]
    unfold stepDoc
    rcases hsp : pySplit data '|' 3 with _ | ⟨a, _ | ⟨b, _ | ⟨c, _ | ⟨d, _ | ⟨e, r⟩⟩⟩⟩⟩ <;>
      simp [callback_router, h1, h2, h3, h4, h5, hsp]
  by_cases h6 : pyStartsWith data "part|" = true
  · have hc : stepCount (cartCount carts (toString u.id)) (data, sOk) =
        cartCount carts (toString u.id) := by simp [stepCount, h1, h2, h3, h4, h5, h6]
    rw [hc]
    unfold stepDoc
    rcases hsp : pySplit data '|' 3 with _ | ⟨a, _ | ⟨b, _ | ⟨c, _ | ⟨d, _ | ⟨e, r⟩⟩⟩⟩⟩
    · simp [callback_router, h1, h2, h3, h4, h5, h6, hsp]
    · simp [callback_router, h1, h2, h3, h4, h5, h6, hsp]
    · simp [callback_router, h1, h2, h3, h4, h5, h6, hsp]
    · simp [callback_router, h1, h2, h3, h4, h5, h6, hsp]
    · by_cases hl : d = "لایت‌بک" <;>
        simp [callback_router, h1, h2, h3, h4, h5, h6, hsp, hl]
    · simp [callback_router, h1, h2, h3, h4, h5, h6, hsp]
  by_cases h7 : pyStartsWith data "add_item|" = true
  · by_cases hlen : (pySplitAll data '|').length < 6
    · have hc : stepCount (cartCount carts (toString u.id)) (data, sOk) =
          cartCount carts (toString u.id) := by
        simp [stepCount, h1, h2, h3, h4, h5, h6, h7, hlen]
      rw [hc]
      unfold stepDoc
      simp [callback_router, h1, h2, h3, h4, h5, h6, h7, hlen]
    · rcases hsp : pySplitAll data '|' with
        _ | ⟨a, _ | ⟨b, _ | ⟨c, _ | ⟨d, _ | ⟨e, _ | ⟨f, _ | ⟨g, rest⟩⟩⟩⟩⟩⟩⟩
      · exact absurd (by rw [hsp]; simp) hlen
      · exact absurd (by rw [hsp]; simp) hlen
      · exact absurd (by rw [hsp]; simp) hlen
      · exact absurd (by rw [hsp]; simp) hlen
      · exact absurd (by rw [hsp]; simp) hlen
      · exact absurd (by rw [hsp]; simp) hlen
      · cases hint : pyToInt f with
        | none =>
            have hc : stepCount (cartCount carts (toString u.id)) (data, sOk) =
                cartCount carts (toString u.id) := by
              simp [stepCount, h1, h2, h3, h4, h5, h6, h7, hlen, hsp, hint]
            rw [hc]
            unfold stepDoc
            simp [callback_router, h1, h2, h3, h4, h5, h6, h7, hlen, hsp, hint]
        | some p =>
            have hc : stepCount (cartCount carts (toString u.id)) (data, sOk) =
                cartCount carts (toString u.id) + 1 := by
              simp [stepCount, h1, h2, h3, h4, h5, h6, h7, hlen, hsp, hint]
            rw [hc]
            have hd : stepDoc u carts (data, sOk) =
                update_cart ((get_cart carts u.id).1) u.id
                  ((get_cart carts u.id).2 ++ [⟨b, c, d, e, p, 1⟩]) := by
              unfold stepDoc
              simp [callback_router, h1, h2, h3, h4, h5, h6, h7, hlen, hsp, hint]
            rw [hd]
            exact cartCount_after_add carts u.id ⟨b, c, d, e, p, 1⟩
      · have hc : stepCount (cartCount carts (toString u.id)) (data, sOk) =
            cartCount carts (toString u.id) := by
          simp [stepCount, h1, h2, h3, h4, h5, h6, h7, hlen, hsp]
        rw [hc]
        unfold stepDoc
        simp [callback_router, h1, h2, h3, h4, h5, h6, h7, hsp]
        split
        · rename_i eff heq
          split at heq
          · cases heq; rfl
          · cases heq
        · rfl
  by_cases h8 : data = "clear_cart"
  · subst h8
    have hd : stepDoc u carts ("clear_cart", sOk) = clear_cart carts u.id := rfl
    have hc : stepCount (cartCount carts (toString u.id)) ("clear_cart", sOk) = 0 := rfl
    rw [hd, hc]
    unfold cartCount
    rw [cartItems_clear]
    rfl
  by_cases h9 : data = "checkout"
  · subst h9
    have hd : stepDoc u carts ("checkout", sOk) = (handle_checkout u sOk carts).doc := rfl
    have hc : stepCount (cartCount carts (toString u.id)) ("checkout", sOk) =
        if sOk then 0 else cartCount carts (toString u.id) := rfl
    rw [hd, hc]
    by_cases hemp : (get_cart carts u.id).2 = []
    · have h0 : cartItems carts (toString u.id) = [] :=
        (get_cart_items carts u.id).symm.trans hemp
      have hdoc : (handle_checkout u sOk carts).doc = (get_cart carts u.id).1 := by
        simp [handle_checkout, hemp]
      rw [hdoc]
      unfold cartCount
      rw [get_cart_doc_items, h0]
      cases sOk <;> simp
    · by_cases hs : sOk
      · have hdoc : (handle_checkout u sOk carts).doc =
            clear_cart ((get_cart carts u.id).1) u.id := by
          simp [handle_checkout, hemp, hs]
        rw [hdoc]
        unfold cartCount
        rw [cartItems_clear]
        simp [hs]
      · have hdoc : (handle_checkout u sOk carts).doc = (get_cart carts u.id).1 := by
          simp [handle_checkout, hemp, hs]
        rw [hdoc]
        unfold cartCount
        rw [get_cart_doc_items]
        simp [hs]
  by_cases h10 : pyStartsWith data "back_models|" = true
  · have hc : stepCount (cartCount carts (toString u.id)) (data, sOk) =
        cartCount carts (toString u.id) := by
      simp [stepCount, h1, h2, h3, h4, h5, h6, h7, h8, h9, h10]
    rw [hc]
    unfold stepDoc
    rcases hsp : pySplit data '|' 1 with _ | ⟨a, _ | ⟨b, _ | ⟨c, r⟩⟩⟩ <;>
      simp [callback_router, h1, h2, h3, h4, h5, h6, h7, h8, h9, h10, hsp, models_keyboard]
  by_cases h11 : pyStartsWith data "back_model_options|" = true
  · have hc : stepCount (cartCount carts (toString u.id)) (data, sOk) =
        cartCount carts (toString u.id) := by
      simp [stepCount, h1, h2, h3, h4, h5, h6, h7, h8, h9, h10, h11]
    rw [hc]
    unfold stepDoc
    rcases hsp : pySplit data '|' 2 with _ | ⟨a, _ | ⟨b, _ | ⟨c, _ | ⟨d, r⟩⟩⟩⟩ <;>
      simp [callback_router, h1, h2, h3, h4, h5, h6, h7, h8, h9, h10, h11, hsp]
  · have hc : stepCount (cartCount carts (toString u.id)) (data, sOk) =
        cartCount carts (toString u.id) := by
      simp [stepCount, h1, h2, h3, h4, h5, h6, h7, h8, h9, h10, h11]
    rw [hc]
    unfold stepDoc
    simp [callback_router, h1, h2, h3, h4, h5, h6, h7, h8, h9, h10, h11]

end CarsBot

namespace CarsBot

theorem cartCount_runEvents (u : User) (carts : CartDoc) (evs : List Event) :
    cartCount (runEvents u carts evs) (userKey u) =
      evs.foldl stepCount (cartCount carts (userKey u)) := by
  induction evs generalizing carts with
  | nil => rfl
  | cons e rest ih =>
      have h1 : runEvents u carts (e :: rest) = runEvents u (stepDoc u carts e) rest := rfl
      rw [h1, ih (stepDoc u carts e), cartCount_stepDoc, List.foldl_cons]

/-! Claim C4. -/

/-- Claim C4: starting from an empty (or absent) cart, after routing any
sequence of this user's callbacks the cart's item count equals the number
of successfully parsed `add_item` commands since the last `clear_cart` or
checkout with a successful send (`addsSinceReset`). -/
theorem cart_count_tracks_adds (u : User) (carts : CartDoc) (evs : List Event)
    (h : cartCount carts (userKey u) = 0) :
    cartCount (runEvents u carts evs) (userKey u) = addsSinceReset evs := by
  rw [cartCount_runEvents, h]
  rfl

/-- Witness for C4: two adds, a clear, one failing checkout, two more adds
and one crashing command leave exactly two items. -/
theorem cart_count_tracks_adds_witness :
    cartCount
      (runEvents ⟨7, none, "Ali"⟩ []
        [("add_item|b|m|n|1|5", true), ("add_item|b|m|n|1|7", true), ("clear_cart", true),
         ("add_item|b|m|n|1|9", true), ("checkout", false), ("add_item|b|m|n|1|11", true),
         ("model|x", true)])
      (userKey ⟨7, none, "Ali"⟩) = 2 :=
  (cart_count_tracks_adds ⟨7, none, "Ali"⟩ []
    [("add_item|b|m|n|1|5", true), ("add_item|b|m|n|1|7", true), ("clear_cart", true),
     ("add_item|b|m|n|1|9", true), ("checkout", false), ("add_item|b|m|n|1|11", true),
     ("model|x", true)] (by decide)).trans (by decide)

/-! Claim C5. -/

/-- Claim C5: for every cart state reached by an interleaving of add-item
and clear-cart commands, the grand total accumulated by the cart rendering
equals the sum over the items of `price * qty`, and the k-th rendered line
is `itemLine (k+1)` of the k-th item (which displays that item's
`price * qty` subtotal). -/
theorem cart_screen_totals (u : User) (carts : CartDoc) (evs : List Event)
    (hre : ∀ e ∈ evs, pyStartsWith e.1 "add_item|" = true ∨ e.1 = "clear_cart") :
    cartTotal (cartItems (runEvents u carts evs) (userKey u)) =
      ((cartItems (runEvents u carts evs) (userKey u)).map
        (fun it => it.price * it.qty)).sum
    ∧ ∀ k : Nat,
        (cartLines (cartItems (runEvents u carts evs) (userKey u))).get? k =
          ((cartItems (runEvents u carts evs) (userKey u)).get? k).map
            (fun it => itemLine (k + 1) it) := by
  constructor
  · unfold cartTotal
    rw [cartFold_snd]
    simp
  · intro k
    unfold cartLines
    rw [cartFold_fst_get]
    rw [Nat.add_comm 1 k]

/-- Witness for C5: after the spec's example adds (a foreign 185 tire at
185 and a mirror at 120) the rendered grand total is the sum 305. -/
theorem cart_screen_totals_witness :
    cartTotal
      (cartItems
        (runEvents ⟨7, none, "Ali"⟩ []
          [("add_item|پراید|111|لاستیک خارجی|185|185", true),
           ("add_item|پراید|111|آینه بغل|1|120", true)])
        (userKey ⟨7, none, "Ali"⟩)) = 305 :=
  ((cart_screen_totals ⟨7, none, "Ali"⟩ []
    [("add_item|پراید|111|لاستیک خارجی|185|185", true),
     ("add_item|پراید|111|آینه بغل|1|120", true)] (by decide)).1).trans (by decide)

end CarsBot
